import Mathlib

/-!
Verification of the Meshtastic Home Assistant integration's button and text
platforms (`custom_components/meshtastic/button.py` and
`custom_components/meshtastic/text.py`), via a shallow embedding.

External collaborators (the device client, the entity registry, the event
bus) are modelled by their call interfaces: client calls issued by an
operation are returned as an explicit trace, and the registry is a function
from unique IDs to optional entity IDs.
-/

namespace Meshtastic

/-- A chat history entry, the dict appended by
`MeshtasticChatMixin._add_to_history`: keys `from`, `message`, `timestamp`. -/
structure HistoryEntry where
  from_node : String
  message : String
  timestamp : Int
deriving DecidableEq, Repr

/-- A call made on the external device client.  The client object itself is
identified by a numeric reference. -/
inductive Call where
  | reboot (client : Nat) (delaySecs : Nat)
  | send_text (client : Nat) (text : String) (channel_index : Option Nat)
deriving DecidableEq, Repr

/-- Whether an awaited client call returns normally or raises. -/
inductive SendOutcome where
  | success
  | failure
deriving DecidableEq, Repr

/-! ### Button platform (`button.py`) -/

/-- `MeshtasticNodeRebootButton`.  `__init__` stores the node ID (via
`MeshtasticNodeEntity`, modelled from the spec as keeping the node ID it is
constructed with) and the client reference. -/
structure MeshtasticNodeRebootButton where
  node_id : Nat
  client : Nat
deriving DecidableEq, Repr

/-- `MeshtasticNodeRebootButton.__init__`: keeps the node ID and the client. -/
def MeshtasticNodeRebootButton.init (node_id : Nat) (client : Nat) :
    MeshtasticNodeRebootButton :=
  { node_id := node_id, client := client }

/-- `MeshtasticNodeRebootButton.async_press`: awaits `self._client.reboot(5)`
and touches no field of the entity.  The issued client calls are returned as
a trace alongside the (unchanged) entity. -/
def MeshtasticNodeRebootButton.async_press (b : MeshtasticNodeRebootButton) :
    List Call × MeshtasticNodeRebootButton :=
  ([Call.reboot b.client 5], b)

/-! ### Text platform (`text.py`) -/

/-- The channel `settings` dict as fetched from the client at setup
(`channel["settings"]`): name plus transmission settings. -/
structure ChannelSettings where
  name : String
  psk : String
  uplinkEnabled : Bool
  downlinkEnabled : Bool
deriving DecidableEq, Repr

/-- A channel as returned by `client.async_get_channels()`:
`channel["index"]`, `channel["role"]`, `channel["settings"]`. -/
structure Channel where
  index : Nat
  role : String
  settings : ChannelSettings
deriving DecidableEq, Repr

/-- The transmission-settings dict passed to `GatewayChannelEntity.__init__`
by `MeshtasticChannelText.__init__`:
`{"psk": ..., "uplinkEnabled": ..., "downlinkEnabled": ...}`. -/
structure TransmissionSettings where
  psk : String
  uplinkEnabled : Bool
  downlinkEnabled : Bool
deriving DecidableEq, Repr

/-- `MeshtasticChannelText`.  Fields stored by `__init__` (the
`GatewayChannelEntity` base class, whose code is not part of this
repository, is modelled from the spec as keeping the constructor arguments:
a read-only snapshot held by the entity). -/
structure MeshtasticChannelText where
  config_entry_id : String
  gateway_node : Nat
  index : Nat
  primary : Bool
  secondary : Bool
  channel_settings : TransmissionSettings
  client : Nat
  attr_name : String
  attr_unique_id : String
  native_value : Option String
  history : List HistoryEntry
deriving DecidableEq, Repr

/-- `MeshtasticChannelText.__init__`: stores the constructor arguments,
passes the hardcoded dict `{"psk": "", "uplinkEnabled": True,
"downlinkEnabled": True}` as channel settings, initialises the history to
`[]` (via `MeshtasticChatMixin.__init__`), and derives `_attr_name` from
`(name or ...) + " Chat"` and `_attr_unique_id` from
`f"{config_entry_id}_chat_channel_{gateway_node}_{index}"`. -/
def MeshtasticChannelText.init (config_entry_id : String) (gateway_node : Nat)
    (index : Nat) (name : String) (primary secondary : Bool) (client : Nat) :
    MeshtasticChannelText :=
  { config_entry_id := config_entry_id
    gateway_node := gateway_node
    index := index
    primary := primary
    secondary := secondary
    channel_settings := { psk := "", uplinkEnabled := true, downlinkEnabled := true }
    client := client
    attr_name :=
      (if name ≠ "" then name
       else if primary then "Primary"
       else if secondary then "Secondary"
       else s!"Channel {index}") ++ " Chat"
    attr_unique_id := s!"{config_entry_id}_chat_channel_{gateway_node}_{index}"
    native_value := none
    history := [] }

/-- `MeshtasticDirectMessageText`.  Fields stored by `__init__`. -/
structure MeshtasticDirectMessageText where
  config_entry_id : String
  gateway_node : Nat
  client : Nat
  attr_name : String
  attr_unique_id : String
  native_value : Option String
  history : List HistoryEntry
deriving DecidableEq, Repr

/-- `MeshtasticDirectMessageText.__init__`: stores the constructor
arguments, initialises the history to `[]`, and sets
`_attr_unique_id = f"{config_entry_id}_chat_dm_{gateway_node}"`. -/
def MeshtasticDirectMessageText.init (config_entry_id : String)
    (gateway_node : Nat) (client : Nat) : MeshtasticDirectMessageText :=
  { config_entry_id := config_entry_id
    gateway_node := gateway_node
    client := client
    attr_name := "Direct Message Chat"
    attr_unique_id := s!"{config_entry_id}_chat_dm_{gateway_node}"
    native_value := none
    history := [] }

/-- `MeshtasticChatMixin._add_to_history`: append the new entry, then if the
list length exceeds 50, `pop(0)` the oldest entry. -/
def add_to_history (history : List HistoryEntry) (from_node : String)
    (message : String) (timestamp : Int) : List HistoryEntry :=
  let h := history ++ [{ from_node := from_node, message := message, timestamp := timestamp }]
  if 50 < h.length then h.drop 1 else h

/-- The result of an `async_set_value` call: the client calls issued, whether
the awaited client call raised (the exception then propagates to the
framework), and the entity afterwards. -/
structure SetValueResult (α : Type) where
  calls : List Call
  raised : Bool
  entity : α
deriving DecidableEq, Repr

/-- `MeshtasticChannelText.async_set_value`: awaits
`self._client.send_text(value, channel_index=self._index)`; only if that call
returns normally does the method go on to set `self._attr_native_value = ""`
(a raising await propagates and skips the assignment). -/
def MeshtasticChannelText.async_set_value (e : MeshtasticChannelText)
    (value : String) (outcome : SendOutcome) :
    SetValueResult MeshtasticChannelText :=
  { calls := [Call.send_text e.client value (some e.index)]
    raised := outcome = SendOutcome.failure
    entity :=
      match outcome with
      | SendOutcome.success => { e with native_value := some "" }
      | SendOutcome.failure => e }

/-- `MeshtasticDirectMessageText.async_set_value`: awaits
`self._client.send_text(value)` with no channel index and no destination
(broadcast); only on normal return does it set `_attr_native_value = ""`. -/
def MeshtasticDirectMessageText.async_set_value (e : MeshtasticDirectMessageText)
    (value : String) (outcome : SendOutcome) :
    SetValueResult MeshtasticDirectMessageText :=
  { calls := [Call.send_text e.client value none]
    raised := outcome = SendOutcome.failure
    entity :=
      match outcome with
      | SendOutcome.success => { e with native_value := some "" }
      | SendOutcome.failure => e }

/-- A domain event from the bus, as read by `_on_meshtastic_event`:
`event.data.get("entity_id")`, `event.data.get("from")`,
`event.data.get("message")` (each key may be absent), and
`event.time_fired.timestamp()`. -/
structure MeshtasticEvent where
  data_entity_id : Option String
  data_from : Option String
  data_message : Option String
  time_fired : Int
deriving DecidableEq, Repr

/-- The entity registry's `async_get_entity_id` lookup, modelled as a map
from unique IDs to the registered entity ID (if any). -/
def Registry : Type := String → Option String

/-- Modelled from the spec: `GatewayChannelEntity.build_unique_id` is not
under `src/`; the spec states the unique identifier is derived
deterministically from the host config entry ID, the node ID and the channel
index. -/
def GatewayChannelEntity.build_unique_id (config_entry_id : String)
    (node : Int) (index : Nat) : String :=
  s!"{config_entry_id}_channel_{node}_{index}"

/-- Modelled from the spec: `GatewayDirectMessageEntity.build_unique_id` is
not under `src/`; the spec states the unique identifier is derived
deterministically from the host config entry ID and the node ID. -/
def GatewayDirectMessageEntity.build_unique_id (config_entry_id : String)
    (node : Int) : String :=
  s!"{config_entry_id}_dm_{node}"

/-- Python `str.split("_")` on the character list: splits at every
underscore, keeping empty parts (`"".split("_") == [""]`). -/
def py_split_aux : List Char → List (List Char)
  | [] => [[]]
  | c :: rest =>
    if c = '_' then [] :: py_split_aux rest
    else
      match py_split_aux rest with
      | [] => [[c]]
      | p :: ps => (c :: p) :: ps

/-- Python `s.split("_")`. -/
def py_split_underscore (s : String) : List String :=
  (py_split_aux s.data).map String.mk

/-- Digit-list accumulator for `py_int?`. -/
def py_digits_aux : List Char → Nat → Option Nat
  | [], acc => some acc
  | c :: rest, acc =>
    if c.isDigit then py_digits_aux rest (10 * acc + (c.toNat - 48)) else none

/-- Python `int(s)` on the strings arising here: digits with an optional
leading minus sign; anything else is a `ValueError` (`none`). -/
def py_int? (s : String) : Option Int :=
  match s.data with
  | [] => none
  | '-' :: ds =>
    if ds = [] then none else (py_digits_aux ds 0).map fun n => -(n : Int)
  | ds => (py_digits_aux ds 0).map fun n => (n : Int)

/-- The unique ID `MeshtasticChannelText._on_meshtastic_event` derives before
the registry lookup:
`build_unique_id(uid.split("_")[0], int(uid.split("_")[3]), self._index)`.
`none` models the `IndexError`/`ValueError` a short split or non-numeric
component raises (the callback then ends without touching the history). -/
def MeshtasticChannelText.derived_unique_id (e : MeshtasticChannelText) :
    Option String :=
  let parts := py_split_underscore e.attr_unique_id
  (py_int? (parts.getD 3 "")).map fun node =>
    GatewayChannelEntity.build_unique_id (parts.getD 0 "") node e.index

/-- The unique ID `MeshtasticDirectMessageText._on_meshtastic_event` derives:
`build_unique_id(uid.split("_")[0], int(uid.split("_")[3]))`. -/
def MeshtasticDirectMessageText.derived_unique_id
    (e : MeshtasticDirectMessageText) : Option String :=
  let parts := py_split_underscore e.attr_unique_id
  (py_int? (parts.getD 3 "")).map fun node =>
    GatewayDirectMessageEntity.build_unique_id (parts.getD 0 "") node

/-- `MeshtasticChannelText._on_meshtastic_event`: look the derived unique ID
up in the registry; only when the lookup returns a truthy entity ID (a
non-empty string; `if channel_entity_id and ...`) equal to the event's
`entity_id` is the message appended to the history, with `data.get("from",
"?")` and `data.get("message", "")` as defaults. -/
def MeshtasticChannelText.on_meshtastic_event (registry : Registry)
    (e : MeshtasticChannelText) (ev : MeshtasticEvent) : MeshtasticChannelText :=
  match e.derived_unique_id with
  | none => e
  | some uid =>
    match registry uid with
    | none => e
    | some channel_entity_id =>
      if channel_entity_id ≠ "" ∧ ev.data_entity_id = some channel_entity_id then
        let h := add_to_history e.history (ev.data_from.getD "?")
          (ev.data_message.getD "") ev.time_fired
        { e with history := h }
      else e

/-- `MeshtasticDirectMessageText._on_meshtastic_event`: the same filtering
against the direct-message unique ID. -/
def MeshtasticDirectMessageText.on_meshtastic_event (registry : Registry)
    (e : MeshtasticDirectMessageText) (ev : MeshtasticEvent) :
    MeshtasticDirectMessageText :=
  match e.derived_unique_id with
  | none => e
  | some uid =>
    match registry uid with
    | none => e
    | some dm_entity_id =>
      if dm_entity_id ≠ "" ∧ ev.data_entity_id = some dm_entity_id then
        let h := add_to_history e.history (ev.data_from.getD "?")
          (ev.data_message.getD "") ev.time_fired
        { e with history := h }
      else e

/-- The channel-entity half of `async_setup_entry` in `text.py`: one
`MeshtasticChannelText` per channel whose role is not `"DISABLED"`, in
order, built from the channel's index, `settings["name"]`, and role flags. -/
def build_channel_entities (entry_id : String) (gateway_node : Nat)
    (client : Nat) : List Channel → List MeshtasticChannelText
  | [] => []
  | c :: rest =>
    if c.role ≠ "DISABLED" then
      MeshtasticChannelText.init entry_id gateway_node c.index c.settings.name
          (c.role = "PRIMARY") (c.role = "SECONDARY") client ::
        build_channel_entities entry_id gateway_node client rest
    else
      build_channel_entities entry_id gateway_node client rest

/-- Modelled from the spec: the transmission settings of a channel as "a
read-only snapshot fetched at setup time" — the spec's words for what the
channel chat entity should carry; compared against what
`MeshtasticChannelText.__init__` actually stores. -/
def spec_channel_snapshot (c : Channel) : TransmissionSettings :=
  { psk := c.settings.psk
    uplinkEnabled := c.settings.uplinkEnabled
    downlinkEnabled := c.settings.downlinkEnabled }

/-- Folding a sequence of incoming matching events into the history, one
`_add_to_history` call per event, in arrival order. -/
def process_events (history : List HistoryEntry) (events : List HistoryEntry) :
    List HistoryEntry :=
  events.foldl
    (fun h e => add_to_history h e.from_node e.message e.timestamp) history

/-- `TextEntity` objects handed to `async_add_entities` by
`async_setup_entry` in `text.py`: channel chats and the direct-message
chat. -/
inductive TextPlatformEntity where
  | channel (e : MeshtasticChannelText)
  | dm (e : MeshtasticDirectMessageText)
deriving DecidableEq, Repr

/-- `async_setup_entry` in `text.py`: one channel entity per non-disabled
channel, in order, followed by the single direct-message entity. -/
def async_setup_entry (entry_id : String) (gateway_node : Nat)
    (channels : List Channel) (client : Nat) : List TextPlatformEntity :=
  (build_channel_entities entry_id gateway_node client channels).map
      TextPlatformEntity.channel
    ++ [TextPlatformEntity.dm
          (MeshtasticDirectMessageText.init entry_id gateway_node client)]

/-! ### Sample inputs used by witnesses -/

/-- A concrete channel chat entity, as built at setup. -/
def sampleChannel : MeshtasticChannelText :=
  MeshtasticChannelText.init "entry" 7 2 "Main" true false 0

/-- A concrete direct-message chat entity, as built at setup. -/
def sampleDM : MeshtasticDirectMessageText :=
  MeshtasticDirectMessageText.init "entry" 7 0

/-- A concrete entity registry knowing both sample entities. -/
def sampleRegistry : Registry := fun uid =>
  if uid = "entry_channel_7_2" then some "text.main_chat"
  else if uid = "entry_dm_7" then some "text.dm_chat"
  else none

/-- A concrete domain event carrying all data keys. -/
def sampleEvent : MeshtasticEvent :=
  { data_entity_id := some "text.main_chat"
    data_from := some "!a1b2"
    data_message := some "hello mesh"
    time_fired := 100 }

/-- A concrete channel as fetched from the client, with non-default
transmission settings. -/
def sampleFetchedChannel : Channel :=
  { index := 2
    role := "PRIMARY"
    settings :=
      { name := "Main", psk := "secret", uplinkEnabled := false,
        downlinkEnabled := false } }

/-- A concrete event addressed to some other entity. -/
def sampleOtherEvent : MeshtasticEvent :=
  { data_entity_id := some "text.other_chat"
    data_from := some "!c3d4"
    data_message := some "not for you"
    time_fired := 17 }

/-- A matching channel event with no `from` and no `message` key. -/
def sampleBareChannelEvent : MeshtasticEvent :=
  { data_entity_id := some "text.main_chat"
    data_from := none
    data_message := none
    time_fired := 5 }

/-- A matching direct-message event with no `from` and no `message` key. -/
def sampleBareDMEvent : MeshtasticEvent :=
  { data_entity_id := some "text.dm_chat"
    data_from := none
    data_message := none
    time_fired := 6 }

/-! ### Helper lemmas -/

/-- Unfolding `_add_to_history` with the appended length made explicit. -/
lemma add_to_history_eq (h : List HistoryEntry) (f m : String) (t : Int) :
    add_to_history h f m t
      = if 50 < h.length + 1 then
          (h ++ [HistoryEntry.mk f m t]).drop 1
        else h ++ [HistoryEntry.mk f m t] := by
  unfold add_to_history
  simp

/-- One `_add_to_history` call cannot push a history that respects the cap
past the cap. -/
lemma add_to_history_length_le {h : List HistoryEntry} (f m : String) (t : Int)
    (hle : h.length ≤ 50) : (add_to_history h f m t).length ≤ 50 := by
  rw [add_to_history_eq]
  split <;> simp <;> omega

/-- At the cap, `_add_to_history` evicts exactly the oldest entry: the
result is the tail of the old history with the new entry appended. -/
lemma add_to_history_at_cap {h : List HistoryEntry} (f m : String) (t : Int)
    (hlen : h.length = 50) :
    add_to_history h f m t
      = h.drop 1 ++ [HistoryEntry.mk f m t] := by
  rw [add_to_history_eq, if_pos (by omega),
    List.drop_append_of_le_length (by omega)]

/-- The sliding-window shape is preserved by one `_add_to_history` call:
appending to the last-50 window of `l` yields the last-50 window of
`l ++ [new entry]`. -/
lemma add_to_history_window (l : List HistoryEntry) (f m : String) (t : Int) :
    add_to_history (l.drop (l.length - 50)) f m t
      = (l ++ [HistoryEntry.mk f m t]).drop
          (l.length + 1 - 50) := by
  by_cases hn : l.length < 50
  · have h0 : l.length - 50 = 0 := by omega
    have h1 : l.length + 1 - 50 = 0 := by omega
    rw [h0, h1, List.drop_zero, List.drop_zero, add_to_history_eq,
      if_neg (by omega)]
  · have hlen : (l.drop (l.length - 50)).length = 50 := by
      rw [List.length_drop]; omega
    rw [add_to_history_at_cap f m t hlen, List.drop_drop,
      List.drop_append_of_le_length (by omega)]
    congr 2
    omega

/-- Starting from an empty history, folding a sequence of events keeps
exactly the last 50 of them, in order. -/
lemma process_events_nil_eq_drop (events : List HistoryEntry) :
    process_events [] events = events.drop (events.length - 50) := by
  induction events using List.reverseRecOn with
  | nil => rfl
  | append_singleton es e ih =>
    have step : process_events [] (es ++ [e])
        = add_to_history (process_events [] es) e.from_node e.message
            e.timestamp := by
      simp [process_events, List.foldl_append]
    rw [step, ih]
    simpa using add_to_history_window es e.from_node e.message e.timestamp

/-! ### Claims -/

/-- C1: pressing a reboot button constructed for node ID `n` with a client
reference issues exactly one reboot request, to that client, with a
5-second delay; the constructed button is indeed bound to node `n`. -/
theorem c1_reboot_press (n client : Nat) :
    (MeshtasticNodeRebootButton.init n client).async_press.1
        = [Call.reboot client 5] ∧
      (MeshtasticNodeRebootButton.init n client).node_id = n :=
  ⟨rfl, rfl⟩

/-- C9: `async_press` performs no local state mutation: both fields of the
button (node ID and client reference) — hence the whole entity — are
unchanged, and no call except the single reboot request is issued. -/
theorem c9_press_frame (b : MeshtasticNodeRebootButton) :
    b.async_press.2.node_id = b.node_id ∧
      b.async_press.2.client = b.client ∧
      b.async_press.2 = b ∧
      b.async_press.1 = [Call.reboot b.client 5] :=
  ⟨rfl, rfl, rfl, rfl⟩

/-- C7: every text submission makes exactly one client send call: a channel
entity sends scoped to its own channel index, the direct-message entity
sends unscoped (no channel index, no destination). -/
theorem c7_send_scoping (ce : MeshtasticChannelText)
    (de : MeshtasticDirectMessageText) (v : String) (o : SendOutcome) :
    (ce.async_set_value v o).calls = [Call.send_text ce.client v (some ce.index)] ∧
      (de.async_set_value v o).calls = [Call.send_text de.client v none] :=
  ⟨rfl, rfl⟩

/-- C2 as stated is false: when the client's send raises, the assignment
`self._attr_native_value = ""` after the `await` is skipped, so a non-empty
displayed value survives a failed submission. -/
theorem c2_counterexample :
    ¬ (({ sampleChannel with native_value := some "draft" }.async_set_value
          "hi" SendOutcome.failure).entity.native_value = some "") := by
  decide

/-- C2 amended: after submitting non-empty text, the displayed value is
empty if the client's send returned normally; if the send raised, the
exception propagates (`raised`) and the entity — its displayed value
included — is unchanged. -/
theorem c2_clear_on_success (ce : MeshtasticChannelText)
    (de : MeshtasticDirectMessageText) (v : String) (hv : v ≠ "") :
    ((ce.async_set_value v SendOutcome.success).entity.native_value = some "" ∧
      (de.async_set_value v SendOutcome.success).entity.native_value = some "") ∧
      ((ce.async_set_value v SendOutcome.failure).raised = true ∧
        (ce.async_set_value v SendOutcome.failure).entity = ce ∧
        (de.async_set_value v SendOutcome.failure).raised = true ∧
        (de.async_set_value v SendOutcome.failure).entity = de) :=
  ⟨⟨rfl, rfl⟩, ⟨by simp [MeshtasticChannelText.async_set_value], rfl,
    by simp [MeshtasticDirectMessageText.async_set_value], rfl⟩⟩

/-- C3: starting from an empty history, a sequence of N matching incoming
events leaves a history of length `min N 50` whose content is exactly the
last `min N 50` entries, in arrival order. -/
theorem c3_history_content (events : List HistoryEntry) :
    (process_events [] events).length = min events.length 50 ∧
      process_events [] events = events.drop (events.length - 50) := by
  have h := process_events_nil_eq_drop events
  refine ⟨?_, h⟩
  rw [h, List.length_drop]
  omega

/-- C4: the history cap invariant.  Construction (of either chat entity)
yields a history within the cap; text submission leaves the history
untouched; event handling keeps a history within the cap; and an append at
the cap evicts exactly the oldest entry, whatever the entries hold. -/
theorem c4_cap_invariant (ce : MeshtasticChannelText)
    (de : MeshtasticDirectMessageText) (registry : Registry)
    (ev : MeshtasticEvent) (v : String) (o : SendOutcome)
    (entry_id nm : String) (gw idx cl : Nat) (p s : Bool)
    (hc : ce.history.length ≤ 50) (hd : de.history.length ≤ 50) :
    (MeshtasticChannelText.init entry_id gw idx nm p s cl).history.length ≤ 50 ∧
      (MeshtasticDirectMessageText.init entry_id gw cl).history.length ≤ 50 ∧
      (ce.async_set_value v o).entity.history = ce.history ∧
      (de.async_set_value v o).entity.history = de.history ∧
      (MeshtasticChannelText.on_meshtastic_event registry ce ev).history.length
        ≤ 50 ∧
      (MeshtasticDirectMessageText.on_meshtastic_event registry de ev).history.length
        ≤ 50 ∧
      ∀ (h : List HistoryEntry) (f m : String) (t : Int), h.length = 50 →
        add_to_history h f m t = h.drop 1 ++ [HistoryEntry.mk f m t] := by
  refine ⟨by simp [MeshtasticChannelText.init],
    by simp [MeshtasticDirectMessageText.init], ?_, ?_, ?_, ?_,
    fun h f m t hlen => add_to_history_at_cap f m t hlen⟩
  · cases o <;> rfl
  · cases o <;> rfl
  · unfold MeshtasticChannelText.on_meshtastic_event
    rcases h1 : ce.derived_unique_id with _ | uid <;> simp only [h1]
    · exact hc
    · rcases h2 : registry uid with _ | eid <;> simp only [h2]
      · exact hc
      · split
        · exact add_to_history_length_le _ _ _ hc
        · exact hc
  · unfold MeshtasticDirectMessageText.on_meshtastic_event
    rcases h1 : de.derived_unique_id with _ | uid <;> simp only [h1]
    · exact hd
    · rcases h2 : registry uid with _ | eid <;> simp only [h2]
      · exact hd
      · split
        · exact add_to_history_length_le _ _ _ hd
        · exact hd

/-- Witness for C4 at concrete entities, a concrete registry and event. -/
theorem c4_cap_invariant_witness :
    (MeshtasticChannelText.init "e2" 1 2 "Nm" true false 3).history.length ≤ 50 ∧
      (MeshtasticDirectMessageText.init "e2" 1 3).history.length ≤ 50 ∧
      (sampleChannel.async_set_value "x" SendOutcome.success).entity.history
        = sampleChannel.history ∧
      (sampleDM.async_set_value "x" SendOutcome.success).entity.history
        = sampleDM.history ∧
      (MeshtasticChannelText.on_meshtastic_event sampleRegistry sampleChannel
          sampleEvent).history.length ≤ 50 ∧
      (MeshtasticDirectMessageText.on_meshtastic_event sampleRegistry sampleDM
          sampleEvent).history.length ≤ 50 ∧
      ∀ (h : List HistoryEntry) (f m : String) (t : Int), h.length = 50 →
        add_to_history h f m t = h.drop 1 ++ [HistoryEntry.mk f m t] :=
  c4_cap_invariant sampleChannel sampleDM sampleRegistry sampleEvent "x"
    SendOutcome.success "e2" "Nm" 1 2 3 true false (by decide) (by decide)

/-- C5 as stated is false: the entity built at setup for a channel whose
fetched settings are `psk = "secret"`, uplink and downlink disabled carries
the hardcoded settings (empty psk, both flags enabled) instead of the
fetched snapshot. -/
theorem c5_counterexample :
    (build_channel_entities "entry" 7 0 [sampleFetchedChannel]).map
        MeshtasticChannelText.channel_settings
      = [TransmissionSettings.mk "" true true] ∧
      spec_channel_snapshot sampleFetchedChannel
        = TransmissionSettings.mk "secret" false false ∧
      TransmissionSettings.mk "" true true
        ≠ TransmissionSettings.mk "secret" false false := by
  decide

/-- C5 amended: every channel chat entity created at setup carries the fixed
transmission settings `{"psk": "", "uplinkEnabled": True, "downlinkEnabled":
True}`, regardless of the channel's fetched settings; only the name, role
and index come from the fetched channel data. -/
theorem c5_fixed_settings (entry_id : String) (gw cl : Nat)
    (channels : List Channel) :
    ∀ e ∈ build_channel_entities entry_id gw cl channels,
      e.channel_settings = TransmissionSettings.mk "" true true := by
  induction channels with
  | nil => intro e he; cases he
  | cons c rest ih =>
    intro e he
    rw [build_channel_entities] at he
    by_cases hrole : c.role = "DISABLED"
    · rw [if_neg (fun hne => hne hrole)] at he
      exact ih e he
    · rw [if_pos hrole] at he
      rcases List.mem_cons.mp he with h | h
      · subst h; rfl
      · exact ih e h

/-- Witness for the amended C5 at a concrete setup. -/
theorem c5_fixed_settings_witness :
    sampleChannel.channel_settings = TransmissionSettings.mk "" true true :=
  c5_fixed_settings "entry" 7 0 [sampleFetchedChannel] sampleChannel (by decide)

/-- C6: setup creates one channel chat entity per channel whose role is not
`"DISABLED"` (in order, from the channel's index, settings name and role),
and no entity for a disabled channel; the direct-message entity is appended
once at the end. -/
theorem c6_disabled_filtered (entry_id : String) (gw cl : Nat)
    (channels : List Channel) :
    async_setup_entry entry_id gw channels cl
      = ((channels.filter fun c => decide (c.role ≠ "DISABLED")).map fun c =>
            TextPlatformEntity.channel
              (MeshtasticChannelText.init entry_id gw c.index c.settings.name
                (c.role = "PRIMARY") (c.role = "SECONDARY") cl))
          ++ [TextPlatformEntity.dm
                (MeshtasticDirectMessageText.init entry_id gw cl)] := by
  unfold async_setup_entry
  congr 1
  induction channels with
  | nil => rfl
  | cons c rest ih =>
    rw [build_channel_entities]
    by_cases hrole : c.role = "DISABLED"
    · rw [if_neg (fun hne => hne hrole)]
      simp only [List.filter_cons, List.map_cons, ih, hrole]
      simp
    · rw [if_pos hrole]
      simp only [List.filter_cons, List.map_cons, ih]
      simp [hrole]

/-- C8: an event whose resolved target entity ID does not match the entity's
own derived unique ID — including when the registry lookup resolves no
entity — leaves the chat entity's history unchanged (channel and
direct-message alike). -/
theorem c8_event_filtering (registry : Registry) (ce : MeshtasticChannelText)
    (de : MeshtasticDirectMessageText) (ev : MeshtasticEvent)
    (hc : ∀ uid, ce.derived_unique_id = some uid →
      registry uid = none ∨ registry uid ≠ ev.data_entity_id)
    (hd : ∀ uid, de.derived_unique_id = some uid →
      registry uid = none ∨ registry uid ≠ ev.data_entity_id) :
    (MeshtasticChannelText.on_meshtastic_event registry ce ev).history
        = ce.history ∧
      (MeshtasticDirectMessageText.on_meshtastic_event registry de ev).history
        = de.history := by
  constructor
  · unfold MeshtasticChannelText.on_meshtastic_event
    rcases h1 : ce.derived_unique_id with _ | uid <;> simp only [h1]
    rcases h2 : registry uid with _ | eid <;> simp only [h2]
    rcases hc uid h1 with h3 | h3
    · rw [h2] at h3; cases h3
    · rw [h2] at h3
      rw [if_neg (fun hcond => h3 hcond.2.symm)]
  · unfold MeshtasticDirectMessageText.on_meshtastic_event
    rcases h1 : de.derived_unique_id with _ | uid <;> simp only [h1]
    rcases h2 : registry uid with _ | eid <;> simp only [h2]
    rcases hd uid h1 with h3 | h3
    · rw [h2] at h3; cases h3
    · rw [h2] at h3
      rw [if_neg (fun hcond => h3 hcond.2.symm)]

/-- Witness for C8: a mismatching event against the sample entities. -/
theorem c8_event_filtering_witness :
    (MeshtasticChannelText.on_meshtastic_event sampleRegistry sampleChannel
          sampleOtherEvent).history = sampleChannel.history ∧
      (MeshtasticDirectMessageText.on_meshtastic_event sampleRegistry sampleDM
          sampleOtherEvent).history = sampleDM.history :=
  c8_event_filtering sampleRegistry sampleChannel sampleDM sampleOtherEvent
    (fun uid h => by
      have huid : uid = "entry_channel_7_2" := by
        have hder : sampleChannel.derived_unique_id
            = some "entry_channel_7_2" := by decide
        rw [hder] at h
        exact (Option.some.inj h).symm
      subst huid
      right
      decide)
    (fun uid h => by
      have huid : uid = "entry_dm_7" := by
        have hder : sampleDM.derived_unique_id = some "entry_dm_7" := by decide
        rw [hder] at h
        exact (Option.some.inj h).symm
      subst huid
      right
      decide)

/-- C10: a matching event lacking the `from` and `message` data keys is
still appended, with the defaults `"?"` for the sender and `""` for the
message; the append is a total list operation and cannot fail. -/
theorem c10_default_fields (registry : Registry) (ce : MeshtasticChannelText)
    (de : MeshtasticDirectMessageText) (evc evd : MeshtasticEvent)
    (uidc uidd eidc eidd : String)
    (hc1 : ce.derived_unique_id = some uidc) (hc2 : registry uidc = some eidc)
    (hc3 : eidc ≠ "") (hc4 : evc.data_entity_id = some eidc)
    (hc5 : evc.data_from = none) (hc6 : evc.data_message = none)
    (hd1 : de.derived_unique_id = some uidd) (hd2 : registry uidd = some eidd)
    (hd3 : eidd ≠ "") (hd4 : evd.data_entity_id = some eidd)
    (hd5 : evd.data_from = none) (hd6 : evd.data_message = none) :
    (MeshtasticChannelText.on_meshtastic_event registry ce evc).history
        = add_to_history ce.history "?" "" evc.time_fired ∧
      (MeshtasticDirectMessageText.on_meshtastic_event registry de evd).history
        = add_to_history de.history "?" "" evd.time_fired := by
  constructor
  · unfold MeshtasticChannelText.on_meshtastic_event
    simp only [hc1, hc2]
    rw [if_pos ⟨hc3, hc4⟩]
    simp [hc5, hc6]
  · unfold MeshtasticDirectMessageText.on_meshtastic_event
    simp only [hd1, hd2]
    rw [if_pos ⟨hd3, hd4⟩]
    simp [hd5, hd6]

/-- Witness for C10 at the sample entities and bare events. -/
theorem c10_default_fields_witness :
    (MeshtasticChannelText.on_meshtastic_event sampleRegistry sampleChannel
          sampleBareChannelEvent).history
        = add_to_history sampleChannel.history "?" ""
            sampleBareChannelEvent.time_fired ∧
      (MeshtasticDirectMessageText.on_meshtastic_event sampleRegistry sampleDM
          sampleBareDMEvent).history
        = add_to_history sampleDM.history "?" "" sampleBareDMEvent.time_fired :=
  c10_default_fields sampleRegistry sampleChannel sampleDM
    sampleBareChannelEvent sampleBareDMEvent
    "entry_channel_7_2" "entry_dm_7" "text.main_chat" "text.dm_chat"
    (by decide) (by decide) (by decide) (by decide) (by decide) (by decide)
    (by decide) (by decide) (by decide) (by decide) (by decide) (by decide)

/-- Witness for the amended C2 at a concrete entity and non-empty text. -/
theorem c2_clear_on_success_witness :
    ((sampleChannel.async_set_value "hi" SendOutcome.success).entity.native_value
          = some "" ∧
        (sampleDM.async_set_value "hi" SendOutcome.success).entity.native_value
          = some "") ∧
      ((sampleChannel.async_set_value "hi" SendOutcome.failure).raised = true ∧
        (sampleChannel.async_set_value "hi" SendOutcome.failure).entity
          = sampleChannel ∧
        (sampleDM.async_set_value "hi" SendOutcome.failure).raised = true ∧
        (sampleDM.async_set_value "hi" SendOutcome.failure).entity = sampleDM) :=
  c2_clear_on_success sampleChannel sampleDM "hi" (by decide)

end Meshtastic
